import Mathlib

/-!
Verification of the pollutant-to-AQI conversion engine and the
dominant-pollutant report derivation of `will-i-suffocate` (`src/main.rs`).

The repository's `main.rs` dispatches on a pollutant identifier string
(`calc_aqi_by_name`) and derives a current-plus-forecast report for a city's
dominant pollutant (`get_city_pollution_emoji`).  The per-pollutant breakpoint
interpolation itself lives in the external `aqi` crate, whose source is not
part of the repository; those parts are modelled from the specification
(regulator breakpoint tables, linear interpolation with round-half-up, and the
severity tier as a pure function of the AQI number).  Concentrations are
modelled as rationals; machine floats are not modelled.
-/

/-- Severity tiers of the `aqi` crate's `AirQualityLevel`, ordered
Good < Moderate < UnhealthySensitive < Unhealthy < VeryUnhealthy < Hazardous. -/
inductive AirQualityLevel where
  | good
  | moderate
  | unhealthySensitive
  | unhealthy
  | veryUnhealthy
  | hazardous
deriving DecidableEq

/-- Result of a conversion, mirroring the `aqi` crate's `AirQuality`
(accessors `aqi()` and `level()`). -/
structure AirQuality where
  aqi : ℤ
  level : AirQualityLevel
deriving DecidableEq

/-- One row of a breakpoint table: concentration range mapped to an AQI
sub-range. -/
structure Breakpoint where
  c_low : ℚ
  c_high : ℚ
  i_low : ℤ
  i_high : ℤ
deriving DecidableEq

/-- Structured error kinds of the conversion engine (the source represents
these as formatted strings; spec §7 names them `OutOfDomainError` and
`UnknownPollutantError`). -/
inductive CalcError where
  | outOfDomain
  | unknownPollutant (name : String)
deriving DecidableEq

/-- Modelled from the spec: each tier corresponds to a fixed AQI sub-range
(0–50, 51–100, 101–150, 151–200, 201–300, 301–500); the tier is a pure
function of the AQI number. -/
def levelOfAqi (n : ℤ) : AirQualityLevel :=
  if n ≤ 50 then .good
  else if n ≤ 100 then .moderate
  else if n ≤ 150 then .unhealthySensitive
  else if n ≤ 200 then .unhealthy
  else if n ≤ 300 then .veryUnhealthy
  else .hazardous

/-- Lower end of a tier's fixed AQI sub-range (spec §3). -/
def levelLow : AirQualityLevel → ℤ
  | .good => 0
  | .moderate => 51
  | .unhealthySensitive => 101
  | .unhealthy => 151
  | .veryUnhealthy => 201
  | .hazardous => 301

/-- Upper end of a tier's fixed AQI sub-range (spec §3). -/
def levelHigh : AirQualityLevel → ℤ
  | .good => 50
  | .moderate => 100
  | .unhealthySensitive => 150
  | .unhealthy => 200
  | .veryUnhealthy => 300
  | .hazardous => 500

/-- Round half-up to an integer, as the spec's `round` (spec §4.1). -/
def roundHalfUp (x : ℚ) : ℤ := ⌊x + 1 / 2⌋

/-- Modelled from the spec: the linear-interpolation AQI value for a
concentration `c` inside breakpoint row `b`,
`round((Ihigh - Ilow) / (Chigh - Clow) * (c - Clow) + Ilow)`. -/
def aqiOf (b : Breakpoint) (c : ℚ) : ℤ :=
  roundHalfUp (((b.i_high : ℚ) - (b.i_low : ℚ)) / (b.c_high - b.c_low) * (c - b.c_low)
    + (b.i_low : ℚ))

/-- First breakpoint row whose range contains `c` (ranges are scanned in table
order, so a shared boundary would resolve to the lower row). -/
def findRow (t : List Breakpoint) (c : ℚ) : Option Breakpoint :=
  t.find? (fun b => decide (b.c_low ≤ c ∧ c ≤ b.c_high))

/-- Modelled from the spec: convert a concentration against one breakpoint
table; out-of-table concentrations fail with `OutOfDomainError`. -/
def convertTable (t : List Breakpoint) (c : ℚ) : Except CalcError AirQuality :=
  match findRow t c with
  | some b => .ok ⟨aqiOf b c, levelOfAqi (aqiOf b c)⟩
  | none => .error .outOfDomain

/-- Modelled from the spec: EPA PM2.5 (24-hour, µg/m³) breakpoint table used
by the `aqi` crate's `pm2_5` (spec §8 fixes rows `0.0–12.0 → 0–50` and
`12.1–35.4 → 51–100`). -/
def pm2_5_table : List Breakpoint :=
  [ ⟨0, 12, 0, 50⟩
  , ⟨mkRat 121 10, mkRat 354 10, 51, 100⟩
  , ⟨mkRat 355 10, mkRat 554 10, 101, 150⟩
  , ⟨mkRat 555 10, mkRat 1504 10, 151, 200⟩
  , ⟨mkRat 1505 10, mkRat 2504 10, 201, 300⟩
  , ⟨mkRat 2505 10, mkRat 3504 10, 301, 400⟩
  , ⟨mkRat 3505 10, mkRat 5004 10, 401, 500⟩ ]

/-- Modelled from the spec: EPA PM10 (24-hour, µg/m³) breakpoint table. -/
def pm10_table : List Breakpoint :=
  [ ⟨0, 54, 0, 50⟩
  , ⟨55, 154, 51, 100⟩
  , ⟨155, 254, 101, 150⟩
  , ⟨255, 354, 151, 200⟩
  , ⟨355, 424, 201, 300⟩
  , ⟨425, 504, 301, 400⟩
  , ⟨505, 604, 401, 500⟩ ]

/-- Modelled from the spec: EPA ozone (8-hour averaging, ppm) breakpoint
table used by the `aqi` crate's `ozone8`. -/
def ozone8_table : List Breakpoint :=
  [ ⟨0, mkRat 54 1000, 0, 50⟩
  , ⟨mkRat 55 1000, mkRat 70 1000, 51, 100⟩
  , ⟨mkRat 71 1000, mkRat 85 1000, 101, 150⟩
  , ⟨mkRat 86 1000, mkRat 105 1000, 151, 200⟩
  , ⟨mkRat 106 1000, mkRat 200 1000, 201, 300⟩ ]

/-- Modelled from the spec: EPA NO2 (1-hour, ppb) breakpoint table. -/
def no2_table : List Breakpoint :=
  [ ⟨0, 53, 0, 50⟩
  , ⟨54, 100, 51, 100⟩
  , ⟨101, 360, 101, 150⟩
  , ⟨361, 649, 151, 200⟩
  , ⟨650, 1249, 201, 300⟩
  , ⟨1250, 1649, 301, 400⟩
  , ⟨1650, 2049, 401, 500⟩ ]

/-- Modelled from the spec: EPA SO2 (1-hour averaging, ppb) breakpoint table
used by the `aqi` crate's `so2_1`. -/
def so2_1_table : List Breakpoint :=
  [ ⟨0, 35, 0, 50⟩
  , ⟨36, 75, 51, 100⟩
  , ⟨76, 185, 101, 150⟩
  , ⟨186, 304, 151, 200⟩
  , ⟨305, 604, 201, 300⟩
  , ⟨605, 804, 301, 400⟩
  , ⟨805, 1004, 401, 500⟩ ]

/-- Modelled from the spec: EPA CO (8-hour, ppm) breakpoint table. -/
def co_table : List Breakpoint :=
  [ ⟨0, mkRat 44 10, 0, 50⟩
  , ⟨mkRat 45 10, mkRat 94 10, 51, 100⟩
  , ⟨mkRat 95 10, mkRat 124 10, 101, 150⟩
  , ⟨mkRat 125 10, mkRat 154 10, 151, 200⟩
  , ⟨mkRat 155 10, mkRat 304 10, 201, 300⟩
  , ⟨mkRat 305 10, mkRat 404 10, 301, 400⟩
  , ⟨mkRat 405 10, mkRat 504 10, 401, 500⟩ ]

/-- Modelled from the spec: the `aqi` crate's `pm2_5`. -/
def pm2_5 (c : ℚ) : Except CalcError AirQuality := convertTable pm2_5_table c

/-- Modelled from the spec: the `aqi` crate's `pm10`. -/
def pm10 (c : ℚ) : Except CalcError AirQuality := convertTable pm10_table c

/-- Modelled from the spec: the `aqi` crate's `ozone8`. -/
def ozone8 (c : ℚ) : Except CalcError AirQuality := convertTable ozone8_table c

/-- Modelled from the spec: the `aqi` crate's `no2`. -/
def no2 (c : ℚ) : Except CalcError AirQuality := convertTable no2_table c

/-- Modelled from the spec: the `aqi` crate's `so2_1`. -/
def so2_1 (c : ℚ) : Except CalcError AirQuality := convertTable so2_1_table c

/-- Modelled from the spec: the `aqi` crate's `co`. -/
def co (c : ℚ) : Except CalcError AirQuality := convertTable co_table c

/-- ASCII lowercasing of one character, modelling Rust's case folding on the
identifiers at hand (all pollutant keys are ASCII). -/
def charLower (c : Char) : Char :=
  if 65 ≤ c.toNat ∧ c.toNat ≤ 90 then Char.ofNat (c.toNat + 32) else c

/-- Model of Rust's `str::to_lowercase` used by `calc_aqi_by_name`. -/
def lowerStr (s : String) : String := ⟨s.data.map charLower⟩

/-- Embeds `calc_aqi_by_name` of `src/main.rs` (lines 220–229): lowercase the
identifier, dispatch to the matching pollutant conversion, otherwise fail for
an unknown pollutant. -/
def calc_aqi_by_name (pollutant : String) (value : ℚ) : Except CalcError AirQuality :=
  if lowerStr pollutant = "pm25" then pm2_5 value
  else if lowerStr pollutant = "pm10" then pm10 value
  else if lowerStr pollutant = "o3" then ozone8 value
  else if lowerStr pollutant = "no2" then no2 value
  else if lowerStr pollutant = "so2" then so2_1 value
  else if lowerStr pollutant = "co" then co value
  else .error (.unknownPollutant (lowerStr pollutant))

/-- The six supported pollutant kinds (spec §3 `PollutantKind`). -/
inductive Pollutant where
  | pm25
  | pm10
  | o3
  | no2
  | so2
  | co
deriving DecidableEq

/-- Breakpoint table of a pollutant kind. -/
def tableOf : Pollutant → List Breakpoint
  | .pm25 => pm2_5_table
  | .pm10 => pm10_table
  | .o3 => ozone8_table
  | .no2 => no2_table
  | .so2 => so2_1_table
  | .co => co_table

/-- Identifier string of a pollutant kind, as matched by `calc_aqi_by_name`. -/
def nameOf : Pollutant → String
  | .pm25 => "pm25"
  | .pm10 => "pm10"
  | .o3 => "o3"
  | .no2 => "no2"
  | .so2 => "so2"
  | .co => "co"

/-- Largest `c_high` of a table: the upper end of the conversion domain. -/
def tableMax (t : List Breakpoint) : ℚ := (t.map Breakpoint.c_high).foldr max 0

/-- A single well-formed breakpoint row: nonempty concentration range,
nonnegative bounds, AQI sub-range inside 0–500. -/
def rowWF (b : Breakpoint) : Prop :=
  b.c_low < b.c_high ∧ 0 ≤ b.c_low ∧ 0 ≤ b.i_low ∧ b.i_low ≤ b.i_high ∧ b.i_high ≤ 500

instance (b : Breakpoint) : Decidable (rowWF b) := by
  unfold rowWF
  infer_instance

/-- A well-formed table: well-formed rows, pairwise in strictly increasing,
non-overlapping concentration order. -/
def tableWF (t : List Breakpoint) : Prop :=
  (∀ b ∈ t, rowWF b) ∧ t.Pairwise (fun a b => a.c_high < b.c_low)

/-- One forecast day of the WAQI feed (`DailyForecast` in `src/main.rs`):
`avg` is a `u32` average concentration, `day` a `"YYYY-MM-DD"` label. -/
structure DailyForecast where
  avg : ℕ
  day : String
deriving DecidableEq

/-- The fields of the WAQI `PollutionData` consumed by the report derivation
(`src/main.rs` lines 132–177): dominant-pollutant identifier, current
per-pollutant values (`iaqi`, the `v` field of each entry), the reading's
date-time string `time.s`, and the per-pollutant daily forecast. The two
hash maps are modelled as association lists, which suffices because the code
only ever looks them up by key. -/
structure PollutionReading where
  dominentpol : String
  iaqi : List (String × ℚ)
  time_s : String
  forecast_daily : List (String × List DailyForecast)

/-- One line of the derived report: a date label with its conversion result
(spec §3 `DailyReportEntry`; the source renders it to text immediately). -/
structure DailyReportEntry where
  date_label : String
  aqi_result : AirQuality
deriving DecidableEq

/-- Failure modes of report derivation (`src/main.rs` represents them as
formatted message strings; spec §7 names the first `MissingCurrentValueError`
and the rest wrap conversion errors with context). -/
inductive ReportError where
  | missingCurrentValue (pollutant : String)
  | aqiCalcFailed (pollutant : String) (e : CalcError)
  | dateParseFailed
  | forecastCalcFailed (pollutant : String) (e : CalcError)
deriving DecidableEq

/-- Embeds `data.time.s.split_whitespace().next()` of `src/main.rs`
(lines 148–153): the first whitespace-separated token of the reading's
date-time string. -/
def currentDateOf (t : String) : Option String :=
  ((((t.data.splitOnP Char.isWhitespace).map (fun l => (⟨l⟩ : String))).filter
    (fun w => decide (w ≠ ""))).head?)

/-- Embeds the forecast loop of `src/main.rs` (lines 161–174): for each
forecast day strictly after the current date, convert its average
concentration; a conversion failure aborts the whole loop. -/
def forecastEntries (dominant current_date : String) :
    List DailyForecast → Except ReportError (List DailyReportEntry)
  | [] => .ok []
  | d :: rest =>
    if current_date < d.day then
      match calc_aqi_by_name dominant (d.avg : ℚ) with
      | .error e => .error (.forecastCalcFailed dominant e)
      | .ok aq =>
        match forecastEntries dominant current_date rest with
        | .error e => .error e
        | .ok es => .ok (⟨d.day, aq⟩ :: es)
    else forecastEntries dominant current_date rest

/-- Embeds the report-derivation core of `get_city_pollution_emoji`
(`src/main.rs` lines 132–177), abstracting the emoji/progress-bar rendering:
look up the dominant pollutant's current value (missing value is an error),
convert it, parse the current date, then convert the strictly-future forecast
days; the result is the ordered list of daily entries, current day first. -/
def deriveReport (data : PollutionReading) : Except ReportError (List DailyReportEntry) :=
  match List.lookup data.dominentpol data.iaqi with
  | none => .error (.missingCurrentValue data.dominentpol)
  | some val =>
    match calc_aqi_by_name data.dominentpol val with
    | .error e => .error (.aqiCalcFailed data.dominentpol e)
    | .ok aq =>
      match currentDateOf data.time_s with
      | none => .error .dateParseFailed
      | some current_date =>
        match forecastEntries data.dominentpol current_date
            ((List.lookup data.dominentpol data.forecast_daily).getD []) with
        | .error e => .error e
        | .ok es => .ok (⟨current_date, aq⟩ :: es)

/-- Conversion of a single forecast day, phrased as the spec words it
(spec §4.2 step 3). -/
def specConvertDay (dominant : String) (d : DailyForecast) :
    Except ReportError DailyReportEntry :=
  match calc_aqi_by_name dominant (d.avg : ℚ) with
  | .error e => .error (.forecastCalcFailed dominant e)
  | .ok aq => .ok ⟨d.day, aq⟩

/-- All-or-nothing conversion of a list of forecast days, phrased as the spec
words it (spec §4.2: emit entries in order, any failure aborts). -/
def specConvertAll (dominant : String) :
    List DailyForecast → Except ReportError (List DailyReportEntry)
  | [] => .ok []
  | d :: rest =>
    match specConvertDay dominant d with
    | .error e => .error e
    | .ok en =>
      match specConvertAll dominant rest with
      | .error e => .error e
      | .ok es => .ok (en :: es)

/-- Spec-side description of the forecast part of the report (spec §4.2
step 3): first keep exactly the days with `date_label` lexicographically
strictly greater than the current date, then convert them in order. -/
def specForecastEntries (dominant current_date : String) (l : List DailyForecast) :
    Except ReportError (List DailyReportEntry) :=
  specConvertAll dominant (l.filter (fun d => decide (current_date < d.day)))

/-- Every pollutant's breakpoint table is well-formed: rows are well-formed
and pairwise in strictly increasing, non-overlapping order. -/
theorem tableWF_tableOf (p : Pollutant) : tableWF (tableOf p) := by
  cases p <;> exact ⟨by decide, by decide⟩

/-- Rounding half-up an integer gives it back. -/
theorem roundHalfUp_intCast (n : ℤ) : roundHalfUp (n : ℚ) = n := by
  rw [roundHalfUp]
  refine Int.floor_eq_iff.mpr ⟨by linarith, by linarith⟩

/-- `roundHalfUp` is monotone. -/
theorem roundHalfUp_mono {x y : ℚ} (h : x ≤ y) : roundHalfUp x ≤ roundHalfUp y := by
  exact Int.floor_le_floor (by linarith)

/-- A lower integer bound below the argument survives `roundHalfUp`. -/
theorem le_roundHalfUp {n : ℤ} {x : ℚ} (h : (n : ℚ) ≤ x) : n ≤ roundHalfUp x :=
  Int.le_floor.mpr (by linarith)

/-- An upper integer bound above the argument survives `roundHalfUp`. -/
theorem roundHalfUp_le {n : ℤ} {x : ℚ} (h : x ≤ (n : ℚ)) : roundHalfUp x ≤ n := by
  have : roundHalfUp x < n + 1 := Int.floor_lt.mpr (by push_cast; linarith)
  omega

/-- The interpolation at a row's lower concentration bound is exactly the
row's lower AQI bound. -/
theorem aqiOf_low (b : Breakpoint) : aqiOf b b.c_low = b.i_low := by
  rw [aqiOf, sub_self, mul_zero, zero_add]
  exact roundHalfUp_intCast b.i_low

/-- The interpolation at a row's upper concentration bound is exactly the
row's upper AQI bound. -/
theorem aqiOf_high {b : Breakpoint} (h : b.c_low < b.c_high) :
    aqiOf b b.c_high = b.i_high := by
  rw [aqiOf, div_mul_cancel₀ _ (sub_ne_zero.mpr (ne_of_gt h)), sub_add_cancel]
  exact roundHalfUp_intCast b.i_high

/-- The interpolation over a well-formed row is monotone in concentration. -/
theorem aqiOf_mono {b : Breakpoint} (hw : rowWF b) {x y : ℚ} (hxy : x ≤ y) :
    aqiOf b x ≤ aqiOf b y := by
  obtain ⟨hc, -, -, hi, -⟩ := hw
  have hslope : (0 : ℚ) ≤ ((b.i_high : ℚ) - (b.i_low : ℚ)) / (b.c_high - b.c_low) :=
    div_nonneg (by exact_mod_cast sub_nonneg.mpr hi) (le_of_lt (sub_pos.mpr hc))
  apply roundHalfUp_mono
  have := mul_le_mul_of_nonneg_left (sub_le_sub_right hxy b.c_low) hslope
  linarith

/-- Inside a well-formed row the interpolated AQI stays within the row's AQI
sub-range. -/
theorem aqiOf_bounds {b : Breakpoint} (hw : rowWF b) {c : ℚ}
    (h1 : b.c_low ≤ c) (h2 : c ≤ b.c_high) :
    b.i_low ≤ aqiOf b c ∧ aqiOf b c ≤ b.i_high := by
  constructor
  · have h := aqiOf_mono hw h1
    rwa [aqiOf_low] at h
  · have h := aqiOf_mono hw h2
    rwa [aqiOf_high hw.1] at h

/-- In a pairwise-sorted table, the scan finds exactly the row containing the
concentration. -/
theorem findRow_eq_some {t : List Breakpoint}
    (hs : t.Pairwise (fun a b => a.c_high < b.c_low)) {b : Breakpoint} {c : ℚ}
    (hb : b ∈ t) (h1 : b.c_low ≤ c) (h2 : c ≤ b.c_high) : findRow t c = some b := by
  induction t with
  | nil => cases hb
  | cons a rest ih =>
    obtain ⟨ha, hrest⟩ := List.pairwise_cons.mp hs
    rcases List.mem_cons.mp hb with rfl | hmem
    · exact List.find?_cons_of_pos _ (by simp [h1, h2])
    · have hna : ¬(a.c_low ≤ c ∧ c ≤ a.c_high) := by
        intro hcon
        exact absurd h1 (by linarith [ha b hmem, hcon.2])
      rw [findRow, List.find?_cons_of_neg _ (by simpa using hna)]
      exact ih hrest hmem

/-- In a pairwise-sorted table at most one row contains a given
concentration. -/
theorem row_unique {t : List Breakpoint}
    (hs : t.Pairwise (fun a b => a.c_high < b.c_low)) {b b' : Breakpoint} {c : ℚ}
    (hb : b ∈ t) (hb' : b' ∈ t) (h1 : b.c_low ≤ c) (h2 : c ≤ b.c_high)
    (h1' : b'.c_low ≤ c) (h2' : c ≤ b'.c_high) : b' = b := by
  induction t with
  | nil => cases hb
  | cons a rest ih =>
    obtain ⟨ha, hrest⟩ := List.pairwise_cons.mp hs
    rcases List.mem_cons.mp hb with rfl | hmem
    · rcases List.mem_cons.mp hb' with rfl | hmem'
      · rfl
      · exact absurd h1' (by linarith [ha b' hmem'])
    · rcases List.mem_cons.mp hb' with rfl | hmem'
      · exact absurd h1 (by linarith [ha b hmem])
      · exact ih hrest hmem hmem'

/-- A concentration contained in no row of the table converts to
`OutOfDomainError`. -/
theorem convertTable_oob {t : List Breakpoint} {c : ℚ}
    (h : ∀ b ∈ t, ¬(b.c_low ≤ c ∧ c ≤ b.c_high)) :
    convertTable t c = .error .outOfDomain := by
  have hnone : findRow t c = none := by
    rw [findRow, List.find?_eq_none]
    intro b hb
    simpa using h b hb
  rw [convertTable, hnone]

/-- A successful table conversion selects exactly the first containing row
and interpolates over it. -/
theorem convertTable_eq_ok {t : List Breakpoint}
    (hs : t.Pairwise (fun a b => a.c_high < b.c_low)) {b : Breakpoint} {c : ℚ}
    (hb : b ∈ t) (h1 : b.c_low ≤ c) (h2 : c ≤ b.c_high) :
    convertTable t c = .ok ⟨aqiOf b c, levelOfAqi (aqiOf b c)⟩ := by
  rw [convertTable, findRow_eq_some hs hb h1 h2]

/-- A successful table conversion comes from some containing row of the
table. -/
theorem convertTable_ok_inv {t : List Breakpoint} {c : ℚ} {aq : AirQuality}
    (h : convertTable t c = .ok aq) :
    ∃ b ∈ t, b.c_low ≤ c ∧ c ≤ b.c_high ∧ aq = ⟨aqiOf b c, levelOfAqi (aqiOf b c)⟩ := by
  rw [convertTable] at h
  cases hf : findRow t c with
  | none => rw [hf] at h; exact (Except.noConfusion h)
  | some b =>
    rw [hf] at h
    have hmem : b ∈ t := List.mem_of_find?_eq_some hf
    have hp := List.find?_some hf
    simp only [decide_eq_true_eq] at hp
    exact ⟨b, hmem, hp.1, hp.2, (Except.ok.inj h).symm⟩

/-- Every row's upper bound is at most the table's maximum. -/
theorem c_high_le_tableMax {t : List Breakpoint} {b : Breakpoint} (hb : b ∈ t) :
    b.c_high ≤ tableMax t := by
  induction t with
  | nil => cases hb
  | cons a rest ih =>
    rcases List.mem_cons.mp hb with rfl | hmem
    · exact le_max_left _ _
    · exact le_trans (ih hmem) (le_max_right _ _)

/-- For an AQI value in `0..500` the derived tier's sub-range contains it. -/
theorem levelOfAqi_bounds {n : ℤ} (h0 : 0 ≤ n) (h5 : n ≤ 500) :
    levelLow (levelOfAqi n) ≤ n ∧ n ≤ levelHigh (levelOfAqi n) := by
  rw [levelOfAqi]
  split_ifs <;> simp [levelLow, levelHigh] <;> omega

/-- For an AQI value in `0..500` only one tier's sub-range contains it. -/
theorem levelOfAqi_unique {n : ℤ} (h0 : 0 ≤ n) (h5 : n ≤ 500) {l : AirQualityLevel}
    (hl : levelLow l ≤ n) (hh : n ≤ levelHigh l) : l = levelOfAqi n := by
  rw [levelOfAqi]
  cases l <;> simp [levelLow, levelHigh] at hl hh <;> split_ifs <;>
    first | rfl | (exfalso; omega)

/-- Lowercasing an ASCII uppercase character adds 32 to its code point. -/
theorem charLower_toNat {c : Char} (h : 65 ≤ c.toNat ∧ c.toNat ≤ 90) :
    (charLower c).toNat = c.toNat + 32 := by
  rw [charLower, if_pos h, Char.ofNat,
    dif_pos (Or.inl (by omega : c.toNat + 32 < 55296))]
  rfl

/-- The output of `charLower` is never an ASCII uppercase character. -/
theorem charLower_not_upper (c : Char) :
    ¬(65 ≤ (charLower c).toNat ∧ (charLower c).toNat ≤ 90) := by
  by_cases h : 65 ≤ c.toNat ∧ c.toNat ≤ 90
  · rw [charLower_toNat h]
    omega
  · rw [charLower, if_neg h]
    exact h

/-- Case folding a character twice equals folding once. -/
theorem charLower_idem (c : Char) : charLower (charLower c) = charLower c := by
  conv_lhs => rw [charLower]
  rw [if_neg (charLower_not_upper c)]

/-- Case folding a character list twice equals folding once. -/
theorem lowerList_idem (l : List Char) :
    (l.map charLower).map charLower = l.map charLower := by
  induction l with
  | nil => rfl
  | cons c cs ih => simp only [List.map_cons, charLower_idem, ih]

/-- Lowercasing is idempotent. -/
theorem lowerStr_idem (s : String) : lowerStr (lowerStr s) = lowerStr s :=
  congrArg String.mk (lowerList_idem s.data)

/-- Dispatching on a pollutant kind's canonical identifier converts against
that kind's breakpoint table. -/
theorem calc_nameOf (p : Pollutant) (v : ℚ) :
    calc_aqi_by_name (nameOf p) v = convertTable (tableOf p) v := by
  cases p <;> rfl

/-- Conversion by name at a concentration inside a containing row of the
pollutant's table interpolates over that row. -/
theorem calc_eval (p : Pollutant) {b : Breakpoint} {c : ℚ} (hb : b ∈ tableOf p)
    (h1 : b.c_low ≤ c) (h2 : c ≤ b.c_high) :
    calc_aqi_by_name (nameOf p) c = .ok ⟨aqiOf b c, levelOfAqi (aqiOf b c)⟩ := by
  rw [calc_nameOf]
  exact convertTable_eq_ok (tableWF_tableOf p).2 hb h1 h2

/-- Conversion by name at a row's exact lower bound yields the row's lower
AQI bound. -/
theorem calc_at_low (p : Pollutant) {b : Breakpoint} (hb : b ∈ tableOf p) :
    calc_aqi_by_name (nameOf p) b.c_low = .ok ⟨b.i_low, levelOfAqi b.i_low⟩ := by
  have hw := (tableWF_tableOf p).1 b hb
  have h := calc_eval p hb le_rfl (le_of_lt hw.1)
  rwa [aqiOf_low] at h

/-- Conversion by name at a row's exact upper bound yields the row's upper
AQI bound. -/
theorem calc_at_high (p : Pollutant) {b : Breakpoint} (hb : b ∈ tableOf p) :
    calc_aqi_by_name (nameOf p) b.c_high = .ok ⟨b.i_high, levelOfAqi b.i_high⟩ := by
  have hw := (tableWF_tableOf p).1 b hb
  have h := calc_eval p hb (le_of_lt hw.1) le_rfl
  rwa [aqiOf_high hw.1] at h

/-- Every successful conversion by name factors through some pollutant
kind's table. -/
theorem calc_ok_inv {s : String} {c : ℚ} {aq : AirQuality}
    (h : calc_aqi_by_name s c = .ok aq) :
    ∃ p : Pollutant, convertTable (tableOf p) c = .ok aq := by
  rw [calc_aqi_by_name] at h
  split_ifs at h
  · exact ⟨.pm25, h⟩
  · exact ⟨.pm10, h⟩
  · exact ⟨.o3, h⟩
  · exact ⟨.no2, h⟩
  · exact ⟨.so2, h⟩
  · exact ⟨.co, h⟩

/-- The fused forecast loop of the source equals the spec's
filter-then-convert description. -/
theorem forecastEntries_eq_spec (dominant current_date : String)
    (l : List DailyForecast) :
    forecastEntries dominant current_date l =
      specForecastEntries dominant current_date l := by
  induction l with
  | nil => rfl
  | cons d rest ih =>
    rw [forecastEntries, specForecastEntries, List.filter_cons]
    by_cases hday : current_date < d.day
    · rw [if_pos hday, if_pos (by simpa using hday), specConvertAll, specConvertDay]
      cases hc : calc_aqi_by_name dominant (d.avg : ℚ) with
      | error e => rfl
      | ok aq =>
        rw [ih, specForecastEntries]
    · rw [if_neg hday, if_neg (by simpa using hday)]
      exact ih

/-- A failing conversion of any strictly-future forecast day makes the
forecast loop fail. -/
theorem forecastEntries_error {dominant current_date : String}
    {l : List DailyForecast} {d : DailyForecast} (hd : d ∈ l)
    (hday : current_date < d.day) {e : CalcError}
    (hc : calc_aqi_by_name dominant (d.avg : ℚ) = .error e) :
    ∃ e', forecastEntries dominant current_date l = .error e' := by
  induction l with
  | nil => cases hd
  | cons a rest ih =>
    rcases List.mem_cons.mp hd with rfl | hmem
    · rw [forecastEntries, if_pos hday, hc]
      exact ⟨_, rfl⟩
    · by_cases ha : current_date < a.day
      · rw [forecastEntries, if_pos ha]
        cases hca : calc_aqi_by_name dominant (a.avg : ℚ) with
        | error e2 => exact ⟨_, rfl⟩
        | ok aq =>
          obtain ⟨e', he'⟩ := ih hmem
          rw [he']
          exact ⟨e', rfl⟩
      · rw [forecastEntries, if_neg ha]
        exact ih hmem

/-- C1: for every supported pollutant and every concentration within that
pollutant's breakpoint table domain, the conversion locates the unique
breakpoint row containing the concentration (the table scan prefers the
lower row, and the row is in fact unique) and returns
`aqi = round((Ihigh - Ilow) / (Chigh - Clow) * (concentration - Clow) + Ilow)`
rounded half-up to an integer. -/
theorem c1_interpolation (p : Pollutant) (c : ℚ) (b : Breakpoint)
    (hb : b ∈ tableOf p) (h1 : b.c_low ≤ c) (h2 : c ≤ b.c_high) :
    (∀ b' ∈ tableOf p, b'.c_low ≤ c → c ≤ b'.c_high → b' = b) ∧
    calc_aqi_by_name (nameOf p) c =
      .ok ⟨roundHalfUp (((b.i_high : ℚ) - (b.i_low : ℚ)) / (b.c_high - b.c_low)
              * (c - b.c_low) + (b.i_low : ℚ)),
           levelOfAqi (roundHalfUp (((b.i_high : ℚ) - (b.i_low : ℚ))
              / (b.c_high - b.c_low) * (c - b.c_low) + (b.i_low : ℚ)))⟩ :=
  ⟨fun b' hb' h1' h2' => row_unique (tableWF_tableOf p).2 hb hb' h1 h2 h1' h2',
   calc_eval p hb h1 h2⟩

/-- Witness for C1 at PM2.5 concentration 20 inside row 12.1–35.4 → 51–100. -/
theorem c1_interpolation_witness :
    ((⟨mkRat 121 10, mkRat 354 10, 51, 100⟩ : Breakpoint) ∈ tableOf Pollutant.pm25 ∧
      mkRat 121 10 ≤ (20 : ℚ) ∧ (20 : ℚ) ≤ mkRat 354 10) ∧
    (∀ b' ∈ tableOf Pollutant.pm25, b'.c_low ≤ (20 : ℚ) → (20 : ℚ) ≤ b'.c_high →
      b' = (⟨mkRat 121 10, mkRat 354 10, 51, 100⟩ : Breakpoint)) ∧
    calc_aqi_by_name "pm25" 20 =
      .ok ⟨aqiOf ⟨mkRat 121 10, mkRat 354 10, 51, 100⟩ 20,
           levelOfAqi (aqiOf ⟨mkRat 121 10, mkRat 354 10, 51, 100⟩ 20)⟩ := by
  have h := c1_interpolation Pollutant.pm25 20 ⟨mkRat 121 10, mkRat 354 10, 51, 100⟩
    (by decide) (by decide) (by decide)
  exact ⟨⟨by decide, by decide, by decide⟩, h.1, h.2⟩

/-- C2: every successful conversion returns a severity level that is exactly
the tier whose fixed AQI sub-range contains the returned AQI value, which
itself lies in 0–500; the pair is never inconsistent. -/
theorem c2_level_consistency (s : String) (c : ℚ) (aq : AirQuality)
    (h : calc_aqi_by_name s c = .ok aq) :
    (0 ≤ aq.aqi ∧ aq.aqi ≤ 500) ∧
    (levelLow aq.level ≤ aq.aqi ∧ aq.aqi ≤ levelHigh aq.level) ∧
    ∀ l, levelLow l ≤ aq.aqi → aq.aqi ≤ levelHigh l → l = aq.level := by
  obtain ⟨p, hp⟩ := calc_ok_inv h
  obtain ⟨b, hb, h1, h2, rfl⟩ := convertTable_ok_inv hp
  have hw := (tableWF_tableOf p).1 b hb
  have hbd := aqiOf_bounds hw h1 h2
  have h0 : 0 ≤ aqiOf b c := le_trans hw.2.2.1 hbd.1
  have h5 : aqiOf b c ≤ 500 := le_trans hbd.2 hw.2.2.2.2
  exact ⟨⟨h0, h5⟩, levelOfAqi_bounds h0 h5,
    fun l hl hh => levelOfAqi_unique h0 h5 hl hh⟩

/-- Witness for C2 at PM10 concentration 55 (AQI 51, Moderate). -/
theorem c2_level_consistency_witness :
    calc_aqi_by_name "pm10" 55 = .ok ⟨51, .moderate⟩ ∧
    ((0 ≤ (51 : ℤ) ∧ (51 : ℤ) ≤ 500) ∧
      (levelLow .moderate ≤ (51 : ℤ) ∧ (51 : ℤ) ≤ levelHigh .moderate) ∧
      ∀ l, levelLow l ≤ (51 : ℤ) → (51 : ℤ) ≤ levelHigh l → l = .moderate) := by
  have hcalc : calc_aqi_by_name "pm10" 55 = .ok ⟨51, .moderate⟩ :=
    calc_at_low Pollutant.pm10 (b := ⟨55, 154, 51, 100⟩) (by decide)
  exact ⟨hcalc, c2_level_consistency "pm10" 55 ⟨51, .moderate⟩ hcalc⟩

/-- C3: converting any row's exact lower bound returns exactly that row's
`aqi_low`, and its exact upper bound returns exactly `aqi_high`; in
particular PM2.5 12.0 → AQI 50 (Good) and PM2.5 35.4 → AQI 100 (Moderate). -/
theorem c3_endpoints :
    (∀ p : Pollutant, ∀ b ∈ tableOf p,
      calc_aqi_by_name (nameOf p) b.c_low = .ok ⟨b.i_low, levelOfAqi b.i_low⟩ ∧
      calc_aqi_by_name (nameOf p) b.c_high = .ok ⟨b.i_high, levelOfAqi b.i_high⟩) ∧
    calc_aqi_by_name "pm25" 12 = .ok ⟨50, .good⟩ ∧
    calc_aqi_by_name "pm25" (mkRat 354 10) = .ok ⟨100, .moderate⟩ := by
  refine ⟨fun p b hb => ⟨calc_at_low p hb, calc_at_high p hb⟩, ?_, ?_⟩
  · exact calc_at_high Pollutant.pm25 (b := ⟨0, 12, 0, 50⟩) (by decide)
  · exact calc_at_high Pollutant.pm25 (b := ⟨mkRat 121 10, mkRat 354 10, 51, 100⟩)
      (by decide)

/-- Witness for C3's quantified part at the PM10 row 55–154 → 51–100. -/
theorem c3_endpoints_witness :
    calc_aqi_by_name "pm10" 55 = .ok ⟨51, levelOfAqi 51⟩ ∧
    calc_aqi_by_name "pm10" 154 = .ok ⟨100, levelOfAqi 100⟩ :=
  c3_endpoints.1 Pollutant.pm10 ⟨55, 154, 51, 100⟩ (by decide)

/-- C4: for concentrations `x1 ≤ x2` strictly inside the same breakpoint
row's range, the AQI returned for `x2` is at least the AQI returned for
`x1`. -/
theorem c4_monotone (p : Pollutant) (b : Breakpoint) (hb : b ∈ tableOf p)
    (x1 x2 : ℚ) (hl : b.c_low < x1) (h12 : x1 ≤ x2) (hh : x2 < b.c_high)
    (a1 a2 : AirQuality)
    (h1 : calc_aqi_by_name (nameOf p) x1 = .ok a1)
    (h2 : calc_aqi_by_name (nameOf p) x2 = .ok a2) :
    a1.aqi ≤ a2.aqi := by
  have e1 := calc_eval p hb (le_of_lt hl) (le_of_lt (lt_of_le_of_lt h12 hh))
  have e2 := calc_eval p hb (le_of_lt (lt_of_lt_of_le hl h12)) (le_of_lt hh)
  rw [h1] at e1
  rw [h2] at e2
  rw [Except.ok.inj e1, Except.ok.inj e2]
  exact aqiOf_mono ((tableWF_tableOf p).1 b hb) h12

/-- Witness for C4 at PM10 concentrations 20 ≤ 30 strictly inside row
0–54 → 0–50. -/
theorem c4_monotone_witness :
    ((⟨0, 54, 0, 50⟩ : Breakpoint) ∈ tableOf Pollutant.pm10 ∧
      (0 : ℚ) < 20 ∧ (20 : ℚ) ≤ 30 ∧ (30 : ℚ) < 54) ∧
    aqiOf ⟨0, 54, 0, 50⟩ 20 ≤ aqiOf ⟨0, 54, 0, 50⟩ 30 := by
  refine ⟨⟨by decide, by decide, by decide, by decide⟩, ?_⟩
  exact c4_monotone Pollutant.pm10 ⟨0, 54, 0, 50⟩ (by decide) 20 30 (by decide)
    (by decide) (by decide) _ _
    (calc_eval Pollutant.pm10 (b := ⟨0, 54, 0, 50⟩) (by decide) (by decide) (by decide))
    (calc_eval Pollutant.pm10 (b := ⟨0, 54, 0, 50⟩) (by decide) (by decide) (by decide))

/-- C5: for every supported pollutant, a negative concentration or one
strictly above the table's maximum `concentration_high` converts to
`OutOfDomainError` and yields no AQI result. -/
theorem c5_out_of_domain (p : Pollutant) (c : ℚ)
    (h : c < 0 ∨ tableMax (tableOf p) < c) :
    calc_aqi_by_name (nameOf p) c = .error .outOfDomain := by
  rw [calc_nameOf]
  apply convertTable_oob
  intro b hb hcontain
  have hw := (tableWF_tableOf p).1 b hb
  rcases h with h | h
  · linarith [hcontain.1, hw.2.1]
  · linarith [hcontain.2, c_high_le_tableMax hb]

/-- Witness for C5 at PM2.5 concentration −1. -/
theorem c5_out_of_domain_witness :
    ((-1 : ℚ) < 0 ∨ tableMax (tableOf Pollutant.pm25) < (-1 : ℚ)) ∧
    calc_aqi_by_name "pm25" (-1) = .error .outOfDomain := by
  have h : (-1 : ℚ) < 0 := by decide
  exact ⟨Or.inl h, c5_out_of_domain Pollutant.pm25 (-1) (Or.inl h)⟩

/-- C6: a pollutant identifier that is not one of the six supported kinds
converts to `UnknownPollutantError` for every concentration. -/
theorem c6_unknown_pollutant (s : String) (v : ℚ)
    (h : lowerStr s ∉ (["pm25", "pm10", "o3", "no2", "so2", "co"] : List String)) :
    calc_aqi_by_name s v = .error (.unknownPollutant (lowerStr s)) := by
  simp only [List.mem_cons, List.not_mem_nil, or_false, not_or] at h
  obtain ⟨h1, h2, h3, h4, h5, h6⟩ := h
  rw [calc_aqi_by_name, if_neg h1, if_neg h2, if_neg h3, if_neg h4, if_neg h5,
    if_neg h6]

/-- Witness for C6 at the unrecognized identifier "xx". -/
theorem c6_unknown_pollutant_witness :
    lowerStr "xx" ∉ (["pm25", "pm10", "o3", "no2", "so2", "co"] : List String) ∧
    calc_aqi_by_name "xx" 10 = .error (.unknownPollutant (lowerStr "xx")) :=
  ⟨by decide, c6_unknown_pollutant "xx" 10 (by decide)⟩

/-- C7: if the reading's current-value map has no entry for the declared
dominant pollutant, report derivation fails with
`MissingCurrentValueError` and produces no entries. -/
theorem c7_missing_current_value (r : PollutionReading)
    (h : List.lookup r.dominentpol r.iaqi = none) :
    deriveReport r = .error (.missingCurrentValue r.dominentpol) := by
  simp only [deriveReport, h]

/-- Witness for C7 on a reading with an empty current-value map. -/
theorem c7_missing_current_value_witness :
    List.lookup "pm25" ([] : List (String × ℚ)) = none ∧
    deriveReport ⟨"pm25", [], "2024-06-01 12:00:00", []⟩ =
      .error (.missingCurrentValue "pm25") :=
  ⟨rfl, c7_missing_current_value ⟨"pm25", [], "2024-06-01 12:00:00", []⟩ rfl⟩

/-- C8: a successfully derived report starts with the current day's
conversion, followed by exactly the conversions of the forecast days for the
dominant pollutant whose date label is lexicographically strictly greater
than the current date label, in the forecast series' original order; with no
forecast key for the dominant pollutant the report has exactly one entry. -/
theorem c8_report_shape (r : PollutionReading) (l : List DailyReportEntry)
    (h : deriveReport r = .ok l) :
    ∃ current_date val aq,
      currentDateOf r.time_s = some current_date ∧
      List.lookup r.dominentpol r.iaqi = some val ∧
      calc_aqi_by_name r.dominentpol val = .ok aq ∧
      l.head? = some ⟨current_date, aq⟩ ∧
      specForecastEntries r.dominentpol current_date
        ((List.lookup r.dominentpol r.forecast_daily).getD []) = .ok l.tail ∧
      (List.lookup r.dominentpol r.forecast_daily = none → l = [⟨current_date, aq⟩]) := by
  cases hv : List.lookup r.dominentpol r.iaqi with
  | none => simp only [deriveReport, hv] at h; exact (Except.noConfusion h)
  | some val =>
  cases hc : calc_aqi_by_name r.dominentpol val with
  | error e => simp only [deriveReport, hv, hc] at h; exact (Except.noConfusion h)
  | ok aq =>
  cases hd : currentDateOf r.time_s with
  | none => simp only [deriveReport, hv, hc, hd] at h; exact (Except.noConfusion h)
  | some current_date =>
  cases hf : forecastEntries r.dominentpol current_date
      ((List.lookup r.dominentpol r.forecast_daily).getD []) with
  | error e =>
    simp only [deriveReport, hv, hc, hd, hf] at h
    exact (Except.noConfusion h)
  | ok es =>
  simp only [deriveReport, hv, hc, hd, hf] at h
  have hl : DailyReportEntry.mk current_date aq :: es = l := Except.ok.inj h
  refine ⟨current_date, val, aq, rfl, rfl, hc, ?_, ?_, ?_⟩
  · rw [← hl]
    rfl
  · rw [← hl]
    rw [← forecastEntries_eq_spec]
    exact hf
  · intro hnone
    simp only [hnone, Option.getD_none] at hf
    have h0 : forecastEntries r.dominentpol current_date [] =
        .ok ([] : List DailyReportEntry) := rfl
    rw [h0] at hf
    rw [← hl, (Except.ok.inj hf).symm]

/-- C9: if converting the current value fails, or converting any
strictly-future forecast day's average fails, report derivation returns an
error and no partial list of entries. -/
theorem c9_no_partial_report (r : PollutionReading) (val : ℚ)
    (hv : List.lookup r.dominentpol r.iaqi = some val)
    (hfail :
      (∃ e, calc_aqi_by_name r.dominentpol val = .error e) ∨
      ∃ current_date, currentDateOf r.time_s = some current_date ∧
        ∃ d ∈ (List.lookup r.dominentpol r.forecast_daily).getD [],
          current_date < d.day ∧
          ∃ e, calc_aqi_by_name r.dominentpol (d.avg : ℚ) = .error e) :
    ∃ e', deriveReport r = .error e' := by
  rcases hfail with ⟨e, he⟩ | ⟨current_date, hcd, d, hd, hday, e, he⟩
  · simp only [deriveReport, hv, he]
    exact ⟨_, rfl⟩
  · cases hc : calc_aqi_by_name r.dominentpol val with
    | error e2 =>
      simp only [deriveReport, hv, hc]
      exact ⟨_, rfl⟩
    | ok aq =>
      obtain ⟨e', he'⟩ := forecastEntries_error hd hday he
      simp only [deriveReport, hv, hc, hcd, he']
      exact ⟨e', rfl⟩

/-- Witness for C9: a reading whose dominant-pollutant current value is out
of domain derives no report. -/
theorem c9_no_partial_report_witness :
    List.lookup "pm25" [("pm25", (-1 : ℚ))] = some (-1 : ℚ) ∧
    calc_aqi_by_name "pm25" (-1 : ℚ) = .error .outOfDomain ∧
    ∃ e', deriveReport ⟨"pm25", [("pm25", (-1 : ℚ))], "2024-06-01 12:00:00", []⟩ =
      .error e' := by
  have hoob : calc_aqi_by_name "pm25" (-1 : ℚ) = .error .outOfDomain := by
    have h := convertTable_oob (t := pm2_5_table) (c := (-1 : ℚ)) (by decide)
    exact h
  refine ⟨rfl, hoob, ?_⟩
  exact c9_no_partial_report ⟨"pm25", [("pm25", (-1 : ℚ))], "2024-06-01 12:00:00", []⟩
    (-1) rfl (Or.inl ⟨.outOfDomain, hoob⟩)

/-- C10: pollutant identifier matching is case-insensitive: conversion of any
identifier string equals conversion of its lowercased form. -/
theorem c10_case_insensitive (s : String) (v : ℚ) :
    calc_aqi_by_name s v = calc_aqi_by_name (lowerStr s) v := by
  simp only [calc_aqi_by_name, lowerStr_idem]

/-- A forecast day on or before the current date is skipped. -/
theorem forecastEntries_cons_skip (dominant current_date : String)
    {d : DailyForecast} (h : ¬current_date < d.day) (rest : List DailyForecast) :
    forecastEntries dominant current_date (d :: rest) =
      forecastEntries dominant current_date rest := by
  rw [forecastEntries, if_neg h]

/-- A strictly-future forecast day whose conversion succeeds contributes one
entry in front of the remaining ones. -/
theorem forecastEntries_cons_conv (dominant current_date : String)
    {d : DailyForecast} (h : current_date < d.day) {aq : AirQuality}
    (hc : calc_aqi_by_name dominant (d.avg : ℚ) = .ok aq)
    {rest : List DailyForecast} {es : List DailyReportEntry}
    (hrest : forecastEntries dominant current_date rest = .ok es) :
    forecastEntries dominant current_date (d :: rest) = .ok (⟨d.day, aq⟩ :: es) := by
  rw [forecastEntries, if_pos h, hc, hrest]

/-- Unfolding of a fully successful report derivation. -/
theorem deriveReport_eq_ok (r : PollutionReading) {val : ℚ} {aq : AirQuality}
    {current_date : String} {es : List DailyReportEntry}
    (hv : List.lookup r.dominentpol r.iaqi = some val)
    (hc : calc_aqi_by_name r.dominentpol val = .ok aq)
    (hd : currentDateOf r.time_s = some current_date)
    (hf : forecastEntries r.dominentpol current_date
      ((List.lookup r.dominentpol r.forecast_daily).getD []) = .ok es) :
    deriveReport r = .ok (⟨current_date, aq⟩ :: es) := by
  simp only [deriveReport, hv, hc, hd, hf]

/-- Witness for C8: a concrete reading with a same-day forecast entry (which
is skipped) and a next-day entry (which is converted). -/
theorem c8_report_shape_witness :
    deriveReport
        ⟨"pm10", [("pm10", (55 : ℚ))], "2024-06-01 12:00:00",
          [("pm10", [⟨154, "2024-06-01"⟩, ⟨154, "2024-06-02"⟩])]⟩ =
      .ok [⟨"2024-06-01", ⟨51, .moderate⟩⟩, ⟨"2024-06-02", ⟨100, .moderate⟩⟩] ∧
    ∃ current_date val aq,
      currentDateOf "2024-06-01 12:00:00" = some current_date ∧
      List.lookup "pm10" [("pm10", (55 : ℚ))] = some val ∧
      calc_aqi_by_name "pm10" val = .ok aq ∧
      ([⟨"2024-06-01", ⟨51, .moderate⟩⟩,
        (⟨"2024-06-02", ⟨100, .moderate⟩⟩ : DailyReportEntry)].head? =
          some ⟨current_date, aq⟩) ∧
      specForecastEntries "pm10" current_date
          ((List.lookup "pm10"
            [("pm10", [(⟨154, "2024-06-01"⟩ : DailyForecast), ⟨154, "2024-06-02"⟩])]).getD [])
        = .ok ([⟨"2024-06-01", ⟨51, .moderate⟩⟩,
            (⟨"2024-06-02", ⟨100, .moderate⟩⟩ : DailyReportEntry)].tail) ∧
      (List.lookup "pm10"
          [("pm10", [(⟨154, "2024-06-01"⟩ : DailyForecast), ⟨154, "2024-06-02"⟩])] = none →
        [⟨"2024-06-01", ⟨51, .moderate⟩⟩,
          (⟨"2024-06-02", ⟨100, .moderate⟩⟩ : DailyReportEntry)] = [⟨current_date, aq⟩]) := by
  have h55 : calc_aqi_by_name "pm10" (55 : ℚ) = .ok ⟨51, .moderate⟩ :=
    calc_at_low Pollutant.pm10 (b := ⟨55, 154, 51, 100⟩) (by decide)
  have h154 : calc_aqi_by_name "pm10" ((154 : ℕ) : ℚ) = .ok ⟨100, .moderate⟩ := by
    have h := calc_at_high Pollutant.pm10 (b := ⟨55, 154, 51, 100⟩) (by decide)
    exact_mod_cast h
  have hdate : currentDateOf "2024-06-01 12:00:00" = some "2024-06-01" := by decide
  have hno : ¬("2024-06-01" : String) < "2024-06-01" := fun h =>
    absurd (String.lt_iff_toList_lt.mp h) (by decide)
  have hyes : ("2024-06-01" : String) < "2024-06-02" :=
    String.lt_iff_toList_lt.mpr (by decide)
  have hfc : forecastEntries "pm10" "2024-06-01"
      [⟨154, "2024-06-01"⟩, ⟨154, "2024-06-02"⟩] =
        .ok [⟨"2024-06-02", ⟨100, .moderate⟩⟩] := by
    rw [forecastEntries_cons_skip "pm10" "2024-06-01" (d := ⟨154, "2024-06-01"⟩) hno]
    exact forecastEntries_cons_conv "pm10" "2024-06-01" (d := ⟨154, "2024-06-02"⟩)
      hyes h154 rfl
  have hrun : deriveReport
      ⟨"pm10", [("pm10", (55 : ℚ))], "2024-06-01 12:00:00",
        [("pm10", [⟨154, "2024-06-01"⟩, ⟨154, "2024-06-02"⟩])]⟩ =
      .ok [⟨"2024-06-01", ⟨51, .moderate⟩⟩, ⟨"2024-06-02", ⟨100, .moderate⟩⟩] :=
    deriveReport_eq_ok _ rfl h55 hdate hfc
  exact ⟨hrun, c8_report_shape _ _ hrun⟩
